import Mathlib

/-!
Shallow embedding of the exercise rep/form engine of the physio_model
repository (file `exercise_logic.py`, class `ExerciseLogic`), together
with theorems settling the specification claims about it.

Modelling conventions:
* angle readings and timestamps are exact rationals (`ℚ`); an absent
  angle reading is `none : Option ℚ`;
* the mutable fields of the Python object become an explicit state
  record `ExerciseLogic` threaded through the operations;
* `time.time()` becomes an explicit `current_time : ℚ` argument of
  `count_reps`;
* `print` calls in the source are I/O only and are not modelled;
* Python `int(x)` (truncation towards zero) is modelled by `pyInt`.
-/

/-- The closed catalog of exercise kinds (`available_exercises` in
`ai_pose_trainer.py`). -/
inductive Exercise where
  | tree_pose
  | squat
  | pushup
  | jumping_jack
deriving DecidableEq, Repr

/-- A per-frame mapping from named joints to angle-in-degrees-or-absent,
mirroring the `angles` dict built by `PoseDetector.calculate_all_angles`. -/
structure Angles where
  left_shoulder : Option ℚ := none
  right_shoulder : Option ℚ := none
  left_elbow : Option ℚ := none
  right_elbow : Option ℚ := none
  left_hip : Option ℚ := none
  right_hip : Option ℚ := none
  left_knee : Option ℚ := none
  right_knee : Option ℚ := none
deriving DecidableEq, Repr

/-- The mutable state of the `ExerciseLogic` Python object
(`__init__`, lines 31-35 of `exercise_logic.py`). -/
structure ExerciseLogic where
  exercise_state : String
  rep_count : ℕ
  pose_start_time : Option ℚ
  last_pose_end_time : Option ℚ
  form_status : ℤ × List String
deriving DecidableEq, Repr

/-- The state right after `ExerciseLogic.__init__`. -/
def ExerciseLogic.init : ExerciseLogic :=
  { exercise_state := "start"
    rep_count := 0
    pose_start_time := none
    last_pose_end_time := none
    form_status := (0, []) }

/-! Threshold profile (`self.thresholds`), fixed at startup and never
mutated.  The per-exercise `confidence_threshold` entries are consumed by
the pose detector, not by the engine logic, and are not needed here. -/

def tree_pose_knee_bend : ℚ := 25
def tree_pose_balance_duration : ℚ := 1.5
def tree_pose_hip_variance : ℚ := 20
def squat_down : ℚ := 100
def squat_up : ℚ := 130
def squat_knee_alignment : ℚ := 30
def pushup_down : ℚ := 100
def pushup_up : ℚ := 150
def pushup_hip_variance : ℚ := 20
def jumping_jack_down : ℚ := 30
def jumping_jack_up : ℚ := 90

/-- `ExerciseLogic.check_form` (lines 54-88): a pure predicate over the
current state and the input angles; it writes no state.  There is no
`tree_pose` branch in the source, so that kind falls through to the final
`return False`. -/
def check_form (s : ExerciseLogic) (ex : Exercise) (angles : Angles) : Bool :=
  match ex with
  | .squat =>
    match angles.right_knee, angles.left_knee with
    | some right_knee, some left_knee =>
      let knee_angle := (right_knee + left_knee) / 2
      if s.exercise_state = "up" then
        decide (knee_angle ≤ squat_down)
      else
        decide (knee_angle ≥ squat_up)
    | _, _ => false
  | .pushup =>
    match angles.right_elbow, angles.left_elbow with
    | some right_elbow, some left_elbow =>
      let elbow_angle := (right_elbow + left_elbow) / 2
      if s.exercise_state = "up" then
        decide (elbow_angle ≤ pushup_down)
      else
        decide (elbow_angle ≥ pushup_up)
    | _, _ => false
  | .jumping_jack =>
    match angles.right_shoulder, angles.left_shoulder with
    | some right_shoulder, some left_shoulder =>
      let shoulder_angle := (right_shoulder + left_shoulder) / 2
      if s.exercise_state = "up" then
        decide (shoulder_angle ≥ jumping_jack_up)
      else
        decide (shoulder_angle ≤ jumping_jack_down)
    | _, _ => false
  | .tree_pose => false

/-- The inter-rep debounce test
`self.last_pose_end_time is None or current_time - self.last_pose_end_time > gap`
used by the tree-pose (gap 1.0) and squat (gap 0.8) branches of
`count_reps`. -/
def debounce_ok (last : Option ℚ) (current_time gap : ℚ) : Bool :=
  match last with
  | none => true
  | some l => decide (current_time - l > gap)

/-- The trailing stuck-state recovery of the squat branch (lines 157-161):
`if self.pose_start_time and current_time - self.pose_start_time > 2.0`.
Python truthiness makes the test false when `pose_start_time` is `None`
or exactly `0.0`. -/
def squat_timeout_reset (s : ExerciseLogic) (current_time : ℚ) : ExerciseLogic :=
  match s.pose_start_time with
  | none => s
  | some pst =>
    if pst ≠ 0 ∧ current_time - pst > 2 then
      { s with pose_start_time := none, exercise_state := "up" }
    else s

/-- `ExerciseLogic.count_reps` (lines 90-187).  Returns the updated state
and the rep-completed boolean.  In the source, a `return True` inside the
squat branch skips the stuck-state recovery check; every other exit of
that branch passes through it.

The `holding`-with-`pose_start_time = None` combination in the tree-pose
branch would raise a `TypeError` in Python; it is unreachable from any
state this development starts from, and is modelled as a no-op. -/
def count_reps (s : ExerciseLogic) (ex : Exercise) (current_time : ℚ)
    (angles : Angles) : ExerciseLogic × Bool :=
  match ex with
  | .tree_pose =>
    match angles.right_knee, angles.left_knee, angles.right_hip, angles.left_hip with
    | some right_knee, some left_knee, some right_hip, some left_hip =>
      let knee_diff := |right_knee - left_knee|
      let hip_diff := |right_hip - left_hip|
      if knee_diff > tree_pose_knee_bend ∧ hip_diff < tree_pose_hip_variance then
        if s.exercise_state = "start" then
          ({ s with pose_start_time := some current_time,
                    exercise_state := "holding" }, false)
        else if s.exercise_state = "holding" then
          match s.pose_start_time with
          | some pst =>
            if current_time - pst ≥ tree_pose_balance_duration then
              if debounce_ok s.last_pose_end_time current_time 1 then
                ({ s with rep_count := s.rep_count + 1,
                          last_pose_end_time := some current_time }, true)
              else (s, false)
            else (s, false)
          | none => (s, false)
        else (s, false)
      else
        ({ s with exercise_state := "start", pose_start_time := none }, false)
    | _, _, _, _ => (s, false)
  | .squat =>
    match angles.right_knee, angles.left_knee with
    | some right_knee, some left_knee =>
      let knee_angle := (right_knee + left_knee) / 2
      -- Going down
      if s.exercise_state = "up" ∧ knee_angle < squat_down then
        match s.pose_start_time with
        | none =>
          (squat_timeout_reset { s with pose_start_time := some current_time }
            current_time, false)
        | some pst =>
          if current_time - pst ≥ 0.2 then
            (squat_timeout_reset { s with exercise_state := "down",
                                          pose_start_time := none }
              current_time, false)
          else (squat_timeout_reset s current_time, false)
      -- Coming up
      else if s.exercise_state = "down" ∧ knee_angle > squat_up then
        match s.pose_start_time with
        | none =>
          (squat_timeout_reset { s with pose_start_time := some current_time }
            current_time, false)
        | some pst =>
          if current_time - pst ≥ 0.2 then
            if debounce_ok s.last_pose_end_time current_time 0.8 then
              ({ s with exercise_state := "up",
                        rep_count := s.rep_count + 1,
                        last_pose_end_time := some current_time,
                        pose_start_time := none }, true)
            else (squat_timeout_reset s current_time, false)
          else (squat_timeout_reset s current_time, false)
      else (squat_timeout_reset s current_time, false)
    | _, _ => (s, false)
  | .pushup =>
    match angles.right_elbow, angles.left_elbow with
    | some right_elbow, some left_elbow =>
      let elbow_angle := (right_elbow + left_elbow) / 2
      if s.exercise_state = "up" ∧ elbow_angle < pushup_down then
        ({ s with exercise_state := "down" }, false)
      else if s.exercise_state = "down" ∧ elbow_angle > pushup_up then
        ({ s with exercise_state := "up", rep_count := s.rep_count + 1 }, true)
      else (s, false)
    | _, _ => (s, false)
  | .jumping_jack =>
    match angles.right_shoulder, angles.left_shoulder with
    | some right_shoulder, some left_shoulder =>
      let shoulder_angle := (right_shoulder + left_shoulder) / 2
      if s.exercise_state = "up" ∧ shoulder_angle > jumping_jack_up then
        ({ s with exercise_state := "down" }, false)
      else if s.exercise_state = "down" ∧ shoulder_angle < jumping_jack_down then
        ({ s with exercise_state := "up", rep_count := s.rep_count + 1 }, true)
      else (s, false)
    | _, _ => (s, false)

/-- Python `int(x)`: truncation towards zero. -/
def pyInt (q : ℚ) : ℤ := if 0 ≤ q then ⌊q⌋ else -⌊-q⌋

/-! Sub-scores of `get_form_feedback`, one definition per source line. -/

def tree_knee_score (knee_diff : ℚ) : ℚ :=
  min 100 (knee_diff / tree_pose_knee_bend * 100)

def tree_hip_score (hip_diff : ℚ) : ℚ :=
  max 0 (100 - hip_diff / tree_pose_hip_variance * 100)

def squat_depth_score (knee_angle : ℚ) : ℚ :=
  min 100 (knee_angle / squat_down * 100)

def squat_alignment_score (knee_diff : ℚ) : ℚ :=
  max 0 (100 - knee_diff / squat_knee_alignment * 100)

def pushup_depth_score (elbow_angle : ℚ) : ℚ :=
  min 100 (elbow_angle / pushup_down * 100)

def pushup_hip_score (hip_diff : ℚ) : ℚ :=
  max 0 (100 - hip_diff / pushup_hip_variance * 100)

def jumping_jack_score (shoulder_angle : ℚ) : ℚ :=
  min 100 (shoulder_angle / jumping_jack_up * 100)

/-- The confidence score and the raw feedback list accumulated by
`ExerciseLogic.get_form_feedback` (lines 189-268) before the default
message is substituted; the pair depends only on the exercise kind and
the input angles. -/
def form_feedback_raw (ex : Exercise) (angles : Angles) : ℤ × List String :=
  match ex with
    | .tree_pose =>
      match angles.right_knee, angles.left_knee, angles.right_hip, angles.left_hip with
      | some right_knee, some left_knee, some right_hip, some left_hip =>
        let knee_diff := |right_knee - left_knee|
        let hip_diff := |right_hip - left_hip|
        let confidence := pyInt ((tree_knee_score knee_diff + tree_hip_score hip_diff) / 2)
        let feedback :=
          (if knee_diff < tree_pose_knee_bend then ["Raise your knee higher"] else []) ++
          (if hip_diff > tree_pose_hip_variance then ["Keep your hips level"] else [])
        (confidence, feedback)
      | _, _, _, _ => (0, [])
    | .squat =>
      match angles.right_knee, angles.left_knee with
      | some right_knee, some left_knee =>
        let knee_angle := (right_knee + left_knee) / 2
        let knee_diff := |right_knee - left_knee|
        let confidence :=
          pyInt ((squat_depth_score knee_angle + squat_alignment_score knee_diff) / 2)
        let feedback :=
          (if knee_angle > squat_down then ["Squat deeper"] else []) ++
          (if knee_diff > squat_knee_alignment then ["Keep knees aligned"] else [])
        (confidence, feedback)
      | _, _ => (0, [])
    | .pushup =>
      match angles.right_elbow, angles.left_elbow, angles.right_hip, angles.left_hip with
      | some right_elbow, some left_elbow, some right_hip, some left_hip =>
        let elbow_angle := (right_elbow + left_elbow) / 2
        let hip_diff := |right_hip - left_hip|
        let confidence :=
          pyInt ((pushup_depth_score elbow_angle + pushup_hip_score hip_diff) / 2)
        let feedback :=
          (if elbow_angle > pushup_down then ["Lower your chest"] else []) ++
          (if hip_diff > pushup_hip_variance then ["Keep your body straight"] else [])
        (confidence, feedback)
      | _, _, _, _ => (0, [])
    | .jumping_jack =>
      match angles.right_shoulder, angles.left_shoulder with
      | some right_shoulder, some left_shoulder =>
        let shoulder_angle := (right_shoulder + left_shoulder) / 2
        let confidence := pyInt (jumping_jack_score shoulder_angle)
        let feedback :=
          if shoulder_angle < jumping_jack_up then ["Raise arms higher"] else []
        (confidence, feedback)
      | _, _ => (0, [])

/-- `ExerciseLogic.get_form_feedback`, final step (lines 269-273):
default feedback is substituted when no corrective message was
generated. -/
def form_feedback (ex : Exercise) (angles : Angles) : ℤ × List String :=
  let result := form_feedback_raw ex angles
  if result.2 = [] then (result.1, ["Form looks good!"]) else result

/-- The `get_form_feedback` method call: the body never assigns to `self`,
so the state comes back unchanged alongside the computed pair. -/
def get_form_feedback (s : ExerciseLogic) (ex : Exercise) (angles : Angles) :
    ExerciseLogic × (ℤ × List String) :=
  (s, form_feedback ex angles)

/-- `ExerciseLogic.reset` (lines 275-281). -/
def ExerciseLogic.reset (_s : ExerciseLogic) : ExerciseLogic :=
  { exercise_state := "start"
    rep_count := 0
    pose_start_time := none
    last_pose_end_time := none
    form_status := (0, []) }

/-- One engine call of a session, with the exercise kind left implicit
(supplied by the runner). -/
inductive SessionOp where
  | checkForm (angles : Angles)
  | countReps (current_time : ℚ) (angles : Angles)
  | getFeedback (angles : Angles)
  | reset
deriving Repr

/-- Effect of one call on the engine state.  `check_form` writes no state;
`get_form_feedback` returns the state unchanged. -/
def stepCall (s : ExerciseLogic) (ex : Exercise) (op : SessionOp) : ExerciseLogic :=
  match op with
  | .checkForm _ => s
  | .countReps t a => (count_reps s ex t a).1
  | .getFeedback a => (get_form_feedback s ex a).1
  | .reset => s.reset

/-- Run a sequence of calls, all for the same exercise kind. -/
def runCalls (ex : Exercise) (s : ExerciseLogic) (ops : List SessionOp) : ExerciseLogic :=
  ops.foldl (fun s op => stepCall s ex op) s

/-- Run a sequence of calls whose exercise kinds may differ per call. -/
def runMixed (s : ExerciseLogic) (ops : List (Exercise × SessionOp)) : ExerciseLogic :=
  ops.foldl (fun s p => stepCall s p.1 p.2) s

/-- Run `count_reps` over a list of timestamped frames, collecting the
returned booleans in order. -/
def runCountReps (ex : Exercise) (s : ExerciseLogic) :
    List (ℚ × Angles) → ExerciseLogic × List Bool
  | [] => (s, [])
  | (t, a) :: rest =>
    ((runCountReps ex (count_reps s ex t a).1 rest).1,
     (count_reps s ex t a).2 :: (runCountReps ex (count_reps s ex t a).1 rest).2)

/-- Does the frame carry every angle the given exercise kind reads in
`count_reps` and `check_form`?  (`tree_pose` lists the four angles its
`count_reps` branch requires; its `check_form` reads none.) -/
def required_angles_present (ex : Exercise) (a : Angles) : Bool :=
  match ex with
  | .tree_pose =>
    a.right_knee.isSome && a.left_knee.isSome && a.right_hip.isSome && a.left_hip.isSome
  | .squat => a.right_knee.isSome && a.left_knee.isSome
  | .pushup => a.right_elbow.isSome && a.left_elbow.isSome
  | .jumping_jack => a.right_shoulder.isSome && a.left_shoulder.isSome

/-- An angle reading inside the data-model domain: degrees in [0, 180],
or absent.  (Upstream, `PoseDetector.calculate_angle` produces angles via
`arccos`, hence always within this interval when present.) -/
def in_range (o : Option ℚ) : Bool :=
  match o with
  | none => true
  | some q => decide (0 ≤ q ∧ q ≤ 180)

/-- All eight angle readings of a frame lie in the data-model domain. -/
def angles_in_range (a : Angles) : Bool :=
  in_range a.left_shoulder && in_range a.right_shoulder &&
  in_range a.left_elbow && in_range a.right_elbow &&
  in_range a.left_hip && in_range a.right_hip &&
  in_range a.left_knee && in_range a.right_knee

/-- A frame whose two knee angles both carry the value `x` (so the mean
knee angle is `x`) and whose other readings are absent. -/
def knee_frame (x : ℚ) : Angles :=
  { right_knee := some x, left_knee := some x }

/-- A frame with every angle reading absent. -/
def no_angles : Angles := {}

/-- A frame qualifying as a held tree pose: knee difference 50 > 25 and
hip difference 0 < 20. -/
def qualifying_tree_angles : Angles :=
  { right_knee := some 60, left_knee := some 10,
    right_hip := some 90, left_hip := some 90 }

/-- Modelled from the spec: the per-exercise sets of defined phase states
given in the data model, "{start, holding} for tree pose; {up, down} for
squat/pushup/jumping_jack". -/
def specDefinedStates (ex : Exercise) : List String :=
  match ex with
  | .tree_pose => ["start", "holding"]
  | _ => ["up", "down"]

/-- Modelled from the spec: the documented initial phase of each exercise
kind.  Tree pose starts at "start"; the squat/pushup/jumping_jack
machines are documented with "up" as the resting phase from which the
first transition departs (the spec squat test case also starts "with
phase starting at up"). -/
def specInitialPhase (ex : Exercise) : String :=
  match ex with
  | .tree_pose => "start"
  | _ => "up"

/-- The phase values the code can actually reach in single-exercise call
sequences started at construction: construction and `reset` put the
phase at "start", and only the tree-pose branch can move it (to
"holding" and back). -/
def reachablePhases (ex : Exercise) : List String :=
  match ex with
  | .tree_pose => ["start", "holding"]
  | _ => ["start", "up", "down"]

/-! Helper lemmas. -/

/-- From the freshly constructed state, the squat branch of `count_reps`
does nothing: both transition guards require the phase to already be
`up` or `down`, and the stuck-state recovery requires a running timer. -/
theorem count_reps_init_squat (t : ℚ) (a : Angles) :
    count_reps ExerciseLogic.init .squat t a = (ExerciseLogic.init, false) := by
  cases hrk : a.right_knee <;> cases hlk : a.left_knee <;>
    simp [count_reps, ExerciseLogic.init, squat_timeout_reset, hrk, hlk]

/-- Same for the pushup branch. -/
theorem count_reps_init_pushup (t : ℚ) (a : Angles) :
    count_reps ExerciseLogic.init .pushup t a = (ExerciseLogic.init, false) := by
  cases hre : a.right_elbow <;> cases hle : a.left_elbow <;>
    simp [count_reps, ExerciseLogic.init, hre, hle]

/-- Same for the jumping-jack branch. -/
theorem count_reps_init_jumping_jack (t : ℚ) (a : Angles) :
    count_reps ExerciseLogic.init .jumping_jack t a = (ExerciseLogic.init, false) := by
  cases hrs : a.right_shoulder <;> cases hls : a.left_shoulder <;>
    simp [count_reps, ExerciseLogic.init, hrs, hls]

/-- Folding `count_reps` over any frame list from a fixed point of the
step function stays there and reports only `false`. -/
theorem runCountReps_fixed (ex : Exercise)
    (h : ∀ t a, count_reps ExerciseLogic.init ex t a = (ExerciseLogic.init, false)) :
    ∀ frames : List (ℚ × Angles),
      runCountReps ex ExerciseLogic.init frames =
        (ExerciseLogic.init, List.replicate frames.length false) := by
  intro frames
  induction frames with
  | nil => rfl
  | cons f rest ih =>
    obtain ⟨t, a⟩ := f
    simp [runCountReps, h t a, ih, List.replicate_succ]

/-- Any engine call leaves the freshly constructed state unchanged for
the three motion exercises. -/
theorem stepCall_init_fixed (ex : Exercise) (hx : ex ≠ .tree_pose) (op : SessionOp) :
    stepCall ExerciseLogic.init ex op = ExerciseLogic.init := by
  cases op with
  | checkForm a => rfl
  | getFeedback a => rfl
  | reset => rfl
  | countReps t a =>
    cases ex with
    | tree_pose => exact absurd rfl hx
    | squat => exact congrArg Prod.fst (count_reps_init_squat t a)
    | pushup => exact congrArg Prod.fst (count_reps_init_pushup t a)
    | jumping_jack => exact congrArg Prod.fst (count_reps_init_jumping_jack t a)

/-- Whole-sequence version of `stepCall_init_fixed`. -/
theorem runCalls_init_fixed (ex : Exercise) (hx : ex ≠ .tree_pose)
    (ops : List SessionOp) :
    runCalls ex ExerciseLogic.init ops = ExerciseLogic.init := by
  induction ops with
  | nil => rfl
  | cons op rest ih =>
    show runCalls ex (stepCall ExerciseLogic.init ex op) rest = ExerciseLogic.init
    rw [stepCall_init_fixed ex hx op]
    exact ih

/-- One tree-pose engine call keeps the phase inside {start, holding}. -/
theorem tree_step_phase (s : ExerciseLogic) (op : SessionOp)
    (h : s.exercise_state = "start" ∨ s.exercise_state = "holding") :
    (stepCall s .tree_pose op).exercise_state = "start" ∨
      (stepCall s .tree_pose op).exercise_state = "holding" := by
  cases op with
  | checkForm a => exact h
  | getFeedback a => exact h
  | reset => exact Or.inl rfl
  | countReps t a =>
    show (count_reps s .tree_pose t a).1.exercise_state = "start" ∨
      (count_reps s .tree_pose t a).1.exercise_state = "holding"
    rcases h with h | h <;>
      simp only [count_reps] <;>
      (repeat' split) <;>
      simp_all

/-- Whole-sequence version of `tree_step_phase`. -/
theorem tree_run_phase (ops : List SessionOp) :
    ∀ s : ExerciseLogic,
      (s.exercise_state = "start" ∨ s.exercise_state = "holding") →
      ((runCalls .tree_pose s ops).exercise_state = "start" ∨
        (runCalls .tree_pose s ops).exercise_state = "holding") := by
  induction ops with
  | nil => exact fun s h => h
  | cons op rest ih =>
    intro s h
    exact ih _ (tree_step_phase s op h)

/-! Claim theorems. -/

/-- C10: `check_form` has no `tree_pose` branch, so it returns `false`
for tree pose on every state and every angle mapping; the form-ok signal
gating `count_reps` in `AIPoseTrainer.run` is therefore never true for
tree pose. -/
theorem c10_check_form_tree_pose_false :
    ∀ (s : ExerciseLogic) (angles : Angles),
      check_form s Exercise.tree_pose angles = false := by
  intro s angles
  rfl

/-- C7: `get_form_feedback` is deterministic and side-effect-free — the
returned state is the input state unchanged, and the (confidence,
feedback) pair is independent of the engine state (phase, timers, rep
count), so two calls with identical exercise kind and angles agree. -/
theorem c7_get_form_feedback_pure :
    ∀ (s1 s2 : ExerciseLogic) (ex : Exercise) (angles : Angles),
      get_form_feedback s1 ex angles = (s1, (get_form_feedback s2 ex angles).2) := by
  intro s1 s2 ex angles
  rfl

/-- C3, counterexample: immediately after `reset()` the phase is the
string "start", which differs from the documented initial phase of the
squat machine ("up").  The claim that reset restores the documented
initial phase for every exercise kind therefore fails. -/
theorem c3_counterexample :
    (ExerciseLogic.reset ExerciseLogic.init).exercise_state = "start" ∧
      specInitialPhase Exercise.squat = "up" ∧
      (ExerciseLogic.reset ExerciseLogic.init).exercise_state ≠
        specInitialPhase Exercise.squat := by
  exact ⟨rfl, rfl, by decide⟩

/-- C3, amended: after `reset()` the rep count is 0, both timestamps are
cleared, and the phase is the fixed string "start" for every exercise
kind — which is the documented initial phase of tree pose only. -/
theorem c3_reset_state :
    ∀ s : ExerciseLogic,
      (ExerciseLogic.reset s).rep_count = 0 ∧
      (ExerciseLogic.reset s).exercise_state = "start" ∧
      (ExerciseLogic.reset s).pose_start_time = none ∧
      (ExerciseLogic.reset s).last_pose_end_time = none ∧
      (ExerciseLogic.reset s).exercise_state = specInitialPhase Exercise.tree_pose := by
  intro s
  exact ⟨rfl, rfl, rfl, rfl, rfl⟩

/-- C2, counterexample: for the squat kind, already the empty call
sequence (the state right after engine construction) has phase "start",
which is not among the defined squat states {up, down}. -/
theorem c2_counterexample :
    (runCalls Exercise.squat ExerciseLogic.init []).exercise_state = "start" ∧
      "start" ∉ specDefinedStates Exercise.squat := by
  exact ⟨rfl, by decide⟩

/-- C2, amended: over every sequence of engine calls for a fixed
exercise kind started at construction, the phase stays inside the
reachable set: {start, holding} for tree pose (as claimed), but
{start, up, down} for squat/pushup/jumping_jack — construction and
`reset` put the phase at "start", outside the documented {up, down}. -/
theorem c2_phase_reachable :
    ∀ (ex : Exercise) (ops : List SessionOp),
      (runCalls ex ExerciseLogic.init ops).exercise_state ∈ reachablePhases ex := by
  intro ex ops
  cases ex with
  | tree_pose =>
    rcases tree_run_phase ops ExerciseLogic.init (Or.inl rfl) with h | h <;>
      simp [reachablePhases, h]
  | squat => rw [runCalls_init_fixed _ (by decide) ops]; decide
  | pushup => rw [runCalls_init_fixed _ (by decide) ops]; decide
  | jumping_jack => rw [runCalls_init_fixed _ (by decide) ops]; decide

/-- C1: for squat, pushup and jumping jack, from the constructed state
(which `reset()` also produces, first conjunct) every sequence of
`count_reps` calls for that kind returns only `false` and leaves the
state — in particular `rep_count = 0` and the phase — unchanged: the
up/down machine is unreachable from phase "start". -/
theorem c1_up_down_machine_unreachable :
    ∀ (s : ExerciseLogic) (frames : List (ℚ × Angles)),
      ExerciseLogic.reset s = ExerciseLogic.init ∧
      runCountReps .squat ExerciseLogic.init frames =
        (ExerciseLogic.init, List.replicate frames.length false) ∧
      runCountReps .pushup ExerciseLogic.init frames =
        (ExerciseLogic.init, List.replicate frames.length false) ∧
      runCountReps .jumping_jack ExerciseLogic.init frames =
        (ExerciseLogic.init, List.replicate frames.length false) := by
  intro s frames
  exact ⟨rfl,
    runCountReps_fixed _ count_reps_init_squat frames,
    runCountReps_fixed _ count_reps_init_pushup frames,
    runCountReps_fixed _ count_reps_init_jumping_jack frames⟩

/-- C4: when any required angle of the exercise is absent, `count_reps`
returns `false` and leaves the whole state — rep count, phase and both
timestamps — unchanged, and `check_form` returns `false`.  Both are total
functions of their inputs: nothing is raised and no default angle value
is substituted. -/
theorem c4_missing_angles_no_effect :
    ∀ (s : ExerciseLogic) (ex : Exercise) (t : ℚ) (a : Angles),
      required_angles_present ex a = false →
      count_reps s ex t a = (s, false) ∧ check_form s ex a = false := by
  intro s ex t a h
  cases ex with
  | tree_pose =>
    refine ⟨?_, rfl⟩
    cases hrk : a.right_knee <;> cases hlk : a.left_knee <;>
      cases hrh : a.right_hip <;> cases hlh : a.left_hip <;>
      simp_all [count_reps, required_angles_present]
  | squat =>
    cases hrk : a.right_knee <;> cases hlk : a.left_knee <;>
      simp_all [count_reps, check_form, required_angles_present]
  | pushup =>
    cases hre : a.right_elbow <;> cases hle : a.left_elbow <;>
      simp_all [count_reps, check_form, required_angles_present]
  | jumping_jack =>
    cases hrs : a.right_shoulder <;> cases hls : a.left_shoulder <;>
      simp_all [count_reps, check_form, required_angles_present]

/-- C4 witness: a concrete missing-angle call (squat with no readings at
all) returns `false` from both entry points and leaves the state as it
was. -/
theorem c4_witness :
    count_reps ExerciseLogic.init Exercise.squat 0 no_angles =
        (ExerciseLogic.init, false) ∧
      check_form ExerciseLogic.init Exercise.squat no_angles = false :=
  c4_missing_angles_no_effect ExerciseLogic.init Exercise.squat 0 no_angles (by decide)

/-- The squat stuck-state recovery never touches the rep count. -/
theorem squat_timeout_reset_rep_count (s : ExerciseLogic) (t : ℚ) :
    (squat_timeout_reset s t).rep_count = s.rep_count := by
  unfold squat_timeout_reset
  (repeat' split) <;> rfl

/-- No branch of `count_reps` decreases the rep count. -/
theorem count_reps_rep_count_mono (s : ExerciseLogic) (ex : Exercise) (t : ℚ)
    (a : Angles) :
    s.rep_count ≤ (count_reps s ex t a).1.rep_count := by
  cases ex <;> simp only [count_reps] <;> (repeat' split) <;>
    simp [squat_timeout_reset_rep_count]

/-- No non-reset engine call decreases the rep count. -/
theorem stepCall_rep_count_mono (s : ExerciseLogic) (ex : Exercise) (op : SessionOp)
    (hop : op ≠ SessionOp.reset) :
    s.rep_count ≤ (stepCall s ex op).rep_count := by
  cases op with
  | checkForm a => exact le_rfl
  | getFeedback a => exact le_rfl
  | countReps t a => exact count_reps_rep_count_mono s ex t a
  | reset => exact absurd rfl hop

/-- C9: over any sequence of `check_form`/`count_reps`/`get_form_feedback`
calls with arbitrary exercise kinds and angle inputs, the rep count never
decreases; only an explicit `reset()` lowers it, and it sets it to 0. -/
theorem c9_rep_count_monotone :
    ∀ (s : ExerciseLogic) (ops : List (Exercise × SessionOp)),
      ((∀ p ∈ ops, p.2 ≠ SessionOp.reset) →
        s.rep_count ≤ (runMixed s ops).rep_count) ∧
      (ExerciseLogic.reset s).rep_count = 0 := by
  intro s ops
  refine ⟨?_, rfl⟩
  induction ops generalizing s with
  | nil => exact fun _ => le_rfl
  | cons p rest ih =>
    intro hall
    have h1 := stepCall_rep_count_mono s p.1 p.2 (hall p (List.mem_cons_self _ _))
    have h2 := ih (stepCall s p.1 p.2) (fun q hq => hall q (List.mem_cons_of_mem _ hq))
    exact le_trans h1 h2

/-- C9 witness: one concrete non-reset call sequence keeps the rep count
at least where it started, and a reset zeroes it. -/
theorem c9_witness :
    ExerciseLogic.init.rep_count ≤
      (runMixed ExerciseLogic.init
        [(Exercise.squat, SessionOp.countReps 0 (knee_frame 90))]).rep_count ∧
      (ExerciseLogic.reset ExerciseLogic.init).rep_count = 0 := by
  have h := c9_rep_count_monotone ExerciseLogic.init
    [(Exercise.squat, SessionOp.countReps 0 (knee_frame 90))]
  exact ⟨h.1 (by simp), h.2⟩

/-- C5, counterexample: one single uninterrupted qualifying tree-pose
hold, sampled at times 0, 1.5 and 2.6 starting from the constructed
state, makes `count_reps` return `true` twice — at 1.5s (hold reaches
the balance duration) and again at 2.6s (more than 1.0s after the first
completion), without the hold ever being released.  This refutes the
claim that `count_reps` returns `true` at most once per hold. -/
theorem c5_counterexample :
    (runCountReps Exercise.tree_pose ExerciseLogic.init
        [(0, qualifying_tree_angles), (3/2, qualifying_tree_angles),
         (13/5, qualifying_tree_angles)]).2 = [false, true, true] := by
  have e0 : count_reps ExerciseLogic.init .tree_pose 0 qualifying_tree_angles =
      ({ exercise_state := "holding", rep_count := 0, pose_start_time := some 0,
         last_pose_end_time := none, form_status := (0, []) }, false) := by
    norm_num [count_reps, qualifying_tree_angles, ExerciseLogic.init,
      tree_pose_knee_bend, tree_pose_hip_variance]
  have e1 : count_reps
      { exercise_state := "holding", rep_count := 0, pose_start_time := some 0,
        last_pose_end_time := none, form_status := (0, []) }
      .tree_pose (3/2) qualifying_tree_angles =
      ({ exercise_state := "holding", rep_count := 1, pose_start_time := some 0,
         last_pose_end_time := some (3/2), form_status := (0, []) }, true) := by
    norm_num [count_reps, qualifying_tree_angles, debounce_ok,
      tree_pose_knee_bend, tree_pose_hip_variance, tree_pose_balance_duration]
    decide
  have e2 : count_reps
      { exercise_state := "holding", rep_count := 1, pose_start_time := some 0,
        last_pose_end_time := some (3/2), form_status := (0, []) }
      .tree_pose (13/5) qualifying_tree_angles =
      ({ exercise_state := "holding", rep_count := 2, pose_start_time := some 0,
         last_pose_end_time := some (13/5), form_status := (0, []) }, true) := by
    norm_num [count_reps, qualifying_tree_angles, debounce_ok,
      tree_pose_knee_bend, tree_pose_hip_variance, tree_pose_balance_duration]
    decide
  simp [runCountReps, e0, e1, e2]

/-- C5, amended: while the hold persists in phase `holding`, each
`count_reps` call with elapsed time at least 1.5s returns `true` exactly
when more than 1.0s has passed since the last completion (first conjunct;
note the hold start time and the phase are left unchanged, which is what
allows further completions within the same hold), returns `false` when
the 1.0s debounce blocks it (second conjunct), and returns `false` while
the elapsed time is still below 1.5s (third conjunct). -/
theorem c5_tree_hold_reps (s : ExerciseLogic) (t pst rk lk rh lh : ℚ) (a : Angles)
    (hrk : a.right_knee = some rk) (hlk : a.left_knee = some lk)
    (hrh : a.right_hip = some rh) (hlh : a.left_hip = some lh)
    (hknee : |rk - lk| > tree_pose_knee_bend)
    (hhip : |rh - lh| < tree_pose_hip_variance)
    (hs : s.exercise_state = "holding") (hp : s.pose_start_time = some pst) :
    (t - pst ≥ tree_pose_balance_duration →
        debounce_ok s.last_pose_end_time t 1 = true →
        count_reps s .tree_pose t a =
          ({ s with rep_count := s.rep_count + 1,
                    last_pose_end_time := some t }, true)) ∧
    (t - pst ≥ tree_pose_balance_duration →
        debounce_ok s.last_pose_end_time t 1 = false →
        count_reps s .tree_pose t a = (s, false)) ∧
    (t - pst < tree_pose_balance_duration →
        count_reps s .tree_pose t a = (s, false)) := by
  refine ⟨?_, ?_, ?_⟩
  · intro h1 h2
    simp [count_reps, hrk, hlk, hrh, hlh, hknee, hhip, hs, hp, h1, h2]
  · intro h1 h2
    simp [count_reps, hrk, hlk, hrh, hlh, hknee, hhip, hs, hp, h1, h2]
  · intro h1
    simp [count_reps, hrk, hlk, hrh, hlh, hknee, hhip, hs, hp, not_le.mpr h1]

/-- C5 witness: a concrete holding state 1.5s into a qualifying hold
yields a rep, keeping the phase at `holding` and the hold start time in
place. -/
theorem c5_witness :
    count_reps
        { exercise_state := "holding", rep_count := 0, pose_start_time := some 0,
          last_pose_end_time := none, form_status := (0, []) }
        .tree_pose (3/2) qualifying_tree_angles =
      ({ exercise_state := "holding", rep_count := 1, pose_start_time := some 0,
         last_pose_end_time := some (3/2), form_status := (0, []) }, true) :=
  (c5_tree_hold_reps
      { exercise_state := "holding", rep_count := 0, pose_start_time := some 0,
        last_pose_end_time := none, form_status := (0, []) }
      (3/2) 0 60 10 90 90 qualifying_tree_angles rfl rfl rfl rfl
      (by norm_num [tree_pose_knee_bend])
      (by norm_num [tree_pose_hip_variance])
      rfl rfl).1 (by norm_num [tree_pose_balance_duration]) rfl

/-- Unfolding step for `runCountReps`, parameterised by the result of the
head call. -/
theorem runCountReps_cons (ex : Exercise) (s s2 : ExerciseLogic) (b : Bool)
    (t : ℚ) (a : Angles) (rest : List (ℚ × Angles))
    (h : count_reps s ex t a = (s2, b)) :
    runCountReps ex s ((t, a) :: rest) =
      ((runCountReps ex s2 rest).1, b :: (runCountReps ex s2 rest).2) := by
  simp [runCountReps, h]

/-- C6: feeding the squat branch the mean-knee-angle sequence
[140, 140, 90, 90, 90, 140, 140] (both knees present and equal to the
mean) with at least 0.2s between successive frames, phase starting at
`up`, a cleared debounce timer, and at least 0.8s since the last
completion, yields exactly one `true` — at the final frame, where the
angle has been back above 130 for the 0.2s dwell — and the rep count
rises by exactly one. -/
theorem c6_squat_sequence (n : ℕ) (last : Option ℚ) (fs : ℤ × List String)
    (t0 t1 t2 t3 t4 t5 t6 : ℚ)
    (h01 : t1 - t0 ≥ 0.2) (h12 : t2 - t1 ≥ 0.2) (h23 : t3 - t2 ≥ 0.2)
    (h34 : t4 - t3 ≥ 0.2) (h45 : t5 - t4 ≥ 0.2) (h56 : t6 - t5 ≥ 0.2)
    (hlast : ∀ l ∈ last, t0 - l ≥ 0.8) :
    runCountReps .squat
        { exercise_state := "up", rep_count := n, pose_start_time := none,
          last_pose_end_time := last, form_status := fs }
        [(t0, knee_frame 140), (t1, knee_frame 140), (t2, knee_frame 90),
         (t3, knee_frame 90), (t4, knee_frame 90), (t5, knee_frame 140),
         (t6, knee_frame 140)] =
      ({ exercise_state := "up", rep_count := n + 1, pose_start_time := none,
         last_pose_end_time := some t6, form_status := fs },
       [false, false, false, false, false, false, true]) := by
  have hdeb : debounce_ok last t6 0.8 = true := by
    cases last with
    | none => rfl
    | some l =>
      have hl := hlast l rfl
      simp only [debounce_ok, decide_eq_true_eq]
      linarith
  have e0 : count_reps
      { exercise_state := "up", rep_count := n, pose_start_time := none,
        last_pose_end_time := last, form_status := fs }
      .squat t0 (knee_frame 140) =
      ({ exercise_state := "up", rep_count := n, pose_start_time := none,
         last_pose_end_time := last, form_status := fs }, false) := by
    norm_num [count_reps, knee_frame, squat_down, squat_up, squat_timeout_reset]
    all_goals simp
  have e1 : count_reps
      { exercise_state := "up", rep_count := n, pose_start_time := none,
        last_pose_end_time := last, form_status := fs }
      .squat t1 (knee_frame 140) =
      ({ exercise_state := "up", rep_count := n, pose_start_time := none,
         last_pose_end_time := last, form_status := fs }, false) := by
    norm_num [count_reps, knee_frame, squat_down, squat_up, squat_timeout_reset]
    all_goals simp
  have e2 : count_reps
      { exercise_state := "up", rep_count := n, pose_start_time := none,
        last_pose_end_time := last, form_status := fs }
      .squat t2 (knee_frame 90) =
      ({ exercise_state := "up", rep_count := n, pose_start_time := some t2,
         last_pose_end_time := last, form_status := fs }, false) := by
    norm_num [count_reps, knee_frame, squat_down, squat_up, squat_timeout_reset]
  have e3 : count_reps
      { exercise_state := "up", rep_count := n, pose_start_time := some t2,
        last_pose_end_time := last, form_status := fs }
      .squat t3 (knee_frame 90) =
      ({ exercise_state := "down", rep_count := n, pose_start_time := none,
         last_pose_end_time := last, form_status := fs }, false) := by
    norm_num [count_reps, knee_frame, squat_down, squat_up, squat_timeout_reset,
      h23]
    all_goals simp
    all_goals (intro h; exfalso; linarith)
  have e4 : count_reps
      { exercise_state := "down", rep_count := n, pose_start_time := none,
        last_pose_end_time := last, form_status := fs }
      .squat t4 (knee_frame 90) =
      ({ exercise_state := "down", rep_count := n, pose_start_time := none,
         last_pose_end_time := last, form_status := fs }, false) := by
    norm_num [count_reps, knee_frame, squat_down, squat_up, squat_timeout_reset]
    all_goals simp
  have e5 : count_reps
      { exercise_state := "down", rep_count := n, pose_start_time := none,
        last_pose_end_time := last, form_status := fs }
      .squat t5 (knee_frame 140) =
      ({ exercise_state := "down", rep_count := n, pose_start_time := some t5,
         last_pose_end_time := last, form_status := fs }, false) := by
    norm_num [count_reps, knee_frame, squat_down, squat_up, squat_timeout_reset]
  have e6 : count_reps
      { exercise_state := "down", rep_count := n, pose_start_time := some t5,
        last_pose_end_time := last, form_status := fs }
      .squat t6 (knee_frame 140) =
      ({ exercise_state := "up", rep_count := n + 1, pose_start_time := none,
         last_pose_end_time := some t6, form_status := fs }, true) := by
    have h56b : (5 : ℚ)⁻¹ ≤ t6 - t5 := by linarith
    have hdeb2 : debounce_ok last t6 (4 / 5) = true := by
      have h45eq : (0.8 : ℚ) = 4 / 5 := by norm_num
      rwa [h45eq] at hdeb
    norm_num [count_reps, knee_frame, squat_down, squat_up, h56b, hdeb2]
    all_goals simp
    all_goals linarith
  rw [runCountReps_cons _ _ _ _ _ _ _ e0, runCountReps_cons _ _ _ _ _ _ _ e1,
    runCountReps_cons _ _ _ _ _ _ _ e2, runCountReps_cons _ _ _ _ _ _ _ e3,
    runCountReps_cons _ _ _ _ _ _ _ e4, runCountReps_cons _ _ _ _ _ _ _ e5,
    runCountReps_cons _ _ _ _ _ _ _ e6]
  simp [runCountReps]

/-- C6 witness: the same squat sequence at concrete times 0, 0.2, ...,
1.2 from a fresh `up` state produces exactly one rep, at the last
frame. -/
theorem c6_witness :
    runCountReps .squat
        { exercise_state := "up", rep_count := 0, pose_start_time := none,
          last_pose_end_time := none, form_status := (0, []) }
        [(0, knee_frame 140), (1/5, knee_frame 140), (2/5, knee_frame 90),
         (3/5, knee_frame 90), (4/5, knee_frame 90), (1, knee_frame 140),
         (6/5, knee_frame 140)] =
      ({ exercise_state := "up", rep_count := 1, pose_start_time := none,
         last_pose_end_time := some (6/5), form_status := (0, []) },
       [false, false, false, false, false, false, true]) :=
  c6_squat_sequence 0 none (0, []) 0 (1/5) (2/5) (3/5) (4/5) 1 (6/5)
    (by norm_num) (by norm_num) (by norm_num) (by norm_num) (by norm_num)
    (by norm_num) (by intro l hl; simp at hl)

/-- The default-message substitution never changes the confidence
component. -/
theorem form_feedback_fst (ex : Exercise) (a : Angles) :
    (form_feedback ex a).1 = (form_feedback_raw ex a).1 := by
  unfold form_feedback
  by_cases h : (form_feedback_raw ex a).2 = [] <;> simp [h]

/-- `pyInt` keeps a rational in [0, 100] inside the integer interval
[0, 100]. -/
theorem pyInt_bounds (q : ℚ) (h0 : 0 ≤ q) (h1 : q ≤ 100) :
    0 ≤ pyInt q ∧ pyInt q ≤ 100 := by
  unfold pyInt
  rw [if_pos h0]
  constructor
  · exact Int.le_floor.mpr (by exact_mod_cast h0)
  · have h2 : ⌊q⌋ ≤ ⌊(100 : ℚ)⌋ := Int.floor_le_floor h1
    simpa using h2

/-- `pyInt` of an average of two values in [0, 100] is in [0, 100]. -/
theorem pyInt_avg_bounds {x y : ℚ} (hx : 0 ≤ x ∧ x ≤ 100) (hy : 0 ≤ y ∧ y ≤ 100) :
    0 ≤ pyInt ((x + y) / 2) ∧ pyInt ((x + y) / 2) ≤ 100 :=
  pyInt_bounds _ (by linarith [hx.1, hy.1]) (by linarith [hx.2, hy.2])

/-- A `min 100` sub-score of a nonnegative ratio is in [0, 100]. -/
theorem min100_bounds {x : ℚ} (hx : 0 ≤ x) : 0 ≤ min 100 x ∧ min 100 x ≤ 100 :=
  ⟨le_min (by norm_num) hx, min_le_left _ _⟩

/-- A `max 0` sub-score of a value at most 100 is in [0, 100]. -/
theorem max0_bounds {x : ℚ} (hx : x ≤ 100) : 0 ≤ max 0 x ∧ max 0 x ≤ 100 :=
  ⟨le_max_left _ _, max_le (by norm_num) hx⟩

theorem tree_knee_score_bounds (d : ℚ) (hd : 0 ≤ d) :
    0 ≤ tree_knee_score d ∧ tree_knee_score d ≤ 100 := by
  unfold tree_knee_score tree_pose_knee_bend
  exact min100_bounds (by positivity)

theorem tree_hip_score_bounds (d : ℚ) (hd : 0 ≤ d) :
    0 ≤ tree_hip_score d ∧ tree_hip_score d ≤ 100 := by
  unfold tree_hip_score tree_pose_hip_variance
  refine max0_bounds ?_
  have hnn : 0 ≤ d / 20 * 100 := by positivity
  linarith

theorem squat_depth_score_bounds (x : ℚ) (hx : 0 ≤ x) :
    0 ≤ squat_depth_score x ∧ squat_depth_score x ≤ 100 := by
  unfold squat_depth_score squat_down
  exact min100_bounds (by positivity)

theorem squat_alignment_score_bounds (d : ℚ) (hd : 0 ≤ d) :
    0 ≤ squat_alignment_score d ∧ squat_alignment_score d ≤ 100 := by
  unfold squat_alignment_score squat_knee_alignment
  refine max0_bounds ?_
  have hnn : 0 ≤ d / 30 * 100 := by positivity
  linarith

theorem pushup_depth_score_bounds (x : ℚ) (hx : 0 ≤ x) :
    0 ≤ pushup_depth_score x ∧ pushup_depth_score x ≤ 100 := by
  unfold pushup_depth_score pushup_down
  exact min100_bounds (by positivity)

theorem pushup_hip_score_bounds (d : ℚ) (hd : 0 ≤ d) :
    0 ≤ pushup_hip_score d ∧ pushup_hip_score d ≤ 100 := by
  unfold pushup_hip_score pushup_hip_variance
  refine max0_bounds ?_
  have hnn : 0 ≤ d / 20 * 100 := by positivity
  linarith

theorem jumping_jack_score_bounds (x : ℚ) (hx : 0 ≤ x) :
    0 ≤ jumping_jack_score x ∧ jumping_jack_score x ≤ 100 := by
  unfold jumping_jack_score jumping_jack_up
  exact min100_bounds (by positivity)

/-- A present reading inside the data-model domain is in [0, 180]. -/
theorem in_range_some {o : Option ℚ} {q : ℚ} (ho : o = some q)
    (h : in_range o = true) : 0 ≤ q ∧ q ≤ 180 := by
  subst ho
  simpa [in_range] using h

/-- C8: for every exercise kind and any angle mapping whose present
readings lie in the data-model domain [0, 180] degrees, the confidence
returned by `get_form_feedback` is an integer in [0, 100]; moreover each
sub-score function maps its (nonnegative) input to a value already inside
[0, 100] before the averaging step. -/
theorem c8_confidence_in_range :
    ∀ (s : ExerciseLogic) (ex : Exercise) (a : Angles),
      angles_in_range a = true →
      (0 ≤ (get_form_feedback s ex a).2.1 ∧ (get_form_feedback s ex a).2.1 ≤ 100) ∧
      (∀ d : ℚ, 0 ≤ d → 0 ≤ tree_knee_score d ∧ tree_knee_score d ≤ 100) ∧
      (∀ d : ℚ, 0 ≤ d → 0 ≤ tree_hip_score d ∧ tree_hip_score d ≤ 100) ∧
      (∀ x : ℚ, 0 ≤ x → 0 ≤ squat_depth_score x ∧ squat_depth_score x ≤ 100) ∧
      (∀ d : ℚ, 0 ≤ d → 0 ≤ squat_alignment_score d ∧ squat_alignment_score d ≤ 100) ∧
      (∀ x : ℚ, 0 ≤ x → 0 ≤ pushup_depth_score x ∧ pushup_depth_score x ≤ 100) ∧
      (∀ d : ℚ, 0 ≤ d → 0 ≤ pushup_hip_score d ∧ pushup_hip_score d ≤ 100) ∧
      (∀ x : ℚ, 0 ≤ x → 0 ≤ jumping_jack_score x ∧ jumping_jack_score x ≤ 100) := by
  intro s ex a h
  refine ⟨?_, tree_knee_score_bounds, tree_hip_score_bounds,
    squat_depth_score_bounds, squat_alignment_score_bounds,
    pushup_depth_score_bounds, pushup_hip_score_bounds,
    jumping_jack_score_bounds⟩
  show 0 ≤ (form_feedback ex a).1 ∧ (form_feedback ex a).1 ≤ 100
  rw [form_feedback_fst]
  have hb := h
  simp only [angles_in_range, Bool.and_eq_true] at hb
  obtain ⟨⟨⟨⟨⟨⟨⟨hls, hrs⟩, hle⟩, hre⟩, hlh⟩, hrh⟩, hlk⟩, hrk⟩ := hb
  cases ex with
  | tree_pose =>
    cases erk : a.right_knee <;> cases elk : a.left_knee <;>
      cases erh : a.right_hip <;> cases elh : a.left_hip <;>
      simp only [form_feedback_raw, erk, elk, erh, elh] <;>
      first
        | exact pyInt_avg_bounds (tree_knee_score_bounds _ (abs_nonneg _))
            (tree_hip_score_bounds _ (abs_nonneg _))
        | norm_num
  | squat =>
    cases erk : a.right_knee <;> cases elk : a.left_knee <;>
      simp only [form_feedback_raw, erk, elk]
    case none.none => norm_num
    case none.some => norm_num
    case some.none => norm_num
    case some.some rk lk =>
      have h1 := in_range_some erk hrk
      have h2 := in_range_some elk hlk
      exact pyInt_avg_bounds
        (squat_depth_score_bounds _ (by linarith [h1.1, h2.1]))
        (squat_alignment_score_bounds _ (abs_nonneg _))
  | pushup =>
    cases ere : a.right_elbow <;> cases ele : a.left_elbow <;>
      cases erh2 : a.right_hip <;> cases elh2 : a.left_hip <;>
      simp only [form_feedback_raw, ere, ele, erh2, elh2]
    case some.some.some.some re le rh lh =>
      have h1 := in_range_some ere hre
      have h2 := in_range_some ele hle
      exact pyInt_avg_bounds
        (pushup_depth_score_bounds _ (by linarith [h1.1, h2.1]))
        (pushup_hip_score_bounds _ (abs_nonneg _))
    all_goals norm_num
  | jumping_jack =>
    cases ers : a.right_shoulder <;> cases els : a.left_shoulder <;>
      simp only [form_feedback_raw, ers, els]
    case none.none => norm_num
    case none.some => norm_num
    case some.none => norm_num
    case some.some rs ls =>
      have h1 := in_range_some ers hrs
      have h2 := in_range_some els hls
      exact pyInt_bounds _
        (jumping_jack_score_bounds _ (by linarith [h1.1, h2.1])).1
        (jumping_jack_score_bounds _ (by linarith [h1.1, h2.1])).2

/-- C8 witness: a concrete in-range squat frame yields a confidence
inside [0, 100]. -/
theorem c8_witness :
    0 ≤ (get_form_feedback ExerciseLogic.init Exercise.squat (knee_frame 140)).2.1 ∧
      (get_form_feedback ExerciseLogic.init Exercise.squat (knee_frame 140)).2.1 ≤ 100 :=
  (c8_confidence_in_range ExerciseLogic.init Exercise.squat (knee_frame 140)
    (by decide)).1
